import Mathlib

/-
Shallow embedding of the order-processing backend (Express routes over a
flat-file record store): the order routes (create / list / my-orders /
stats), the product routes (list / create / update) and the read/write
helpers.  JavaScript numbers are modelled as exact rationals (ℚ),
timestamps as naturals, and JavaScript truthiness of optional fields is
made explicit (`none`/empty string/zero are falsy).
-/

namespace Shop

/-- A catalog product as stored in `products.json`. -/
structure Product where
  id : Int
  name : String
  price : ℚ
  category : String
  description : String
  image : String
  featured : Bool
  createdAt : Nat
  updatedAt : Nat
deriving DecidableEq

/-- One validated line of an order (snapshot of catalog name/price). -/
structure LineItem where
  id : Int
  name : String
  price : ℚ
  quantity : ℚ
  subtotal : ℚ
deriving DecidableEq

/-- Billing information embedded in a stored order. -/
structure CustomerInfo where
  email : String
  firstName : String
  lastName : String
  address : String
  city : String
  zipCode : String
deriving DecidableEq

/-- An order record as stored in `orders.json`. -/
structure Order where
  id : Nat
  orderNumber : String
  userId : Option Int
  customerInfo : CustomerInfo
  items : List LineItem
  total : ℚ
  paymentMethod : String
  status : String
  paymentStatus : String
  createdAt : Nat
  updatedAt : Nat
deriving DecidableEq

/-- One item of an order-creation request body: `{id, quantity}`. -/
structure ReqItem where
  id : Int
  quantity : ℚ
deriving DecidableEq

/-- The order-creation request body. -/
structure OrderRequest where
  email : String
  firstName : String
  lastName : String
  address : String
  city : String
  zipCode : String
  paymentMethod : String
  items : List ReqItem
  total : ℚ
  userId : Option Int
deriving DecidableEq

/-- The distinct failure responses of `POST /` (create order). -/
inductive OrderError where
  | missingBilling
  | emptyItems
  | invalidTotal
  | unknownProduct (id : Int)
  | invalidQuantity (productName : String)
  | totalMismatch (calculated provided : ℚ)
deriving DecidableEq

/-- Outcome of the create-order route. -/
inductive CreateResult where
  | created (o : Order)
  | failed (e : OrderError)
deriving DecidableEq

/-- Whether the create-order outcome is a success. -/
def CreateResult.isCreated : CreateResult → Bool
  | .created _ => true
  | .failed _ => false

/-- Truthiness of the seven required billing/payment fields
(`!email || !firstName || ... || !paymentMethod` in the source). -/
def billingOk (r : OrderRequest) : Bool :=
  r.email != "" && r.firstName != "" && r.lastName != "" && r.address != "" &&
    r.city != "" && r.zipCode != "" && r.paymentMethod != ""

/-- The item-validation loop of the create-order route: resolve each item id
in the catalog, reject non-positive (JS-falsy or `<= 0`) quantities, build
the snapshot line items and accumulate the calculated total. -/
def validateItems (products : List Product) : List ReqItem → Except OrderError (List LineItem × ℚ)
  | [] => .ok ([], 0)
  | item :: rest =>
    match products.find? (fun p => p.id == item.id) with
    | none => .error (.unknownProduct item.id)
    | some product =>
      if item.quantity ≤ 0 then .error (.invalidQuantity product.name)
      else
        match validateItems products rest with
        | .error e => .error e
        | .ok (tail, tailTotal) =>
          .ok ({ id := product.id, name := product.name, price := product.price,
                 quantity := item.quantity,
                 subtotal := product.price * item.quantity } :: tail,
               product.price * item.quantity + tailTotal)

/-- The record appended and returned on a successful order creation:
server-computed total, `status=completed`, `paymentStatus=paid`, id and
`orderNumber` derived from `Date.now()`, `createdAt = updatedAt = now`. -/
def newOrderOf (req : OrderRequest) (validatedItems : List LineItem)
    (calculatedTotal : ℚ) (now : Nat) : Order :=
  { id := now
    orderNumber := "ORD-" ++ Nat.repr now
    userId := req.userId
    customerInfo :=
      { email := req.email, firstName := req.firstName, lastName := req.lastName,
        address := req.address, city := req.city, zipCode := req.zipCode }
    items := validatedItems
    total := calculatedTotal
    paymentMethod := req.paymentMethod
    status := "completed"
    paymentStatus := "paid"
    createdAt := now
    updatedAt := now }

/-- The create-order route (`POST /`): validation, total reconciliation
within tolerance `0.01`, then append-and-persist.  The state (the stored
orders collection) is passed explicitly; `now` stands for `Date.now()`.
Returns the response together with the stored collection after the call. -/
def createOrder (products : List Product) (orders : List Order) (req : OrderRequest)
    (now : Nat) : CreateResult × List Order :=
  if billingOk req = false then (.failed .missingBilling, orders)
  else if req.items.isEmpty then (.failed .emptyItems, orders)
  else if req.total ≤ 0 then (.failed .invalidTotal, orders)
  else
    match validateItems products req.items with
    | .error e => (.failed e, orders)
    | .ok (validatedItems, calculatedTotal) =>
      if 1/100 < |calculatedTotal - req.total| then
        (.failed (.totalMismatch calculatedTotal req.total), orders)
      else
        let newOrder := newOrderOf req validatedItems calculatedTotal now
        (.created newOrder, orders ++ [newOrder])

/-- The catalog price of a product id (`0` when the id is absent); used to
state the specification's `computedTotal = Σ catalogPrice × quantity`. -/
def catalogPrice (products : List Product) (id : Int) : ℚ :=
  match products.find? (fun p => p.id == id) with
  | some p => p.price
  | none => 0

/-- Server-side recomputed total of a requested item list. -/
def computedTotal (products : List Product) (items : List ReqItem) : ℚ :=
  (items.map (fun it => catalogPrice products it.id * it.quantity)).sum

/-- JavaScript `String.prototype.toLowerCase` restricted to the characters
Lean lowers with `Char.toLower` (ASCII letters in all inputs used here). -/
def jsLower (s : String) : String := String.mk (s.data.map Char.toLower)

/-- JavaScript `Array.prototype.slice(start, stop)`: negative indices count
from the end, both are clamped to `[0, length]`. -/
def jsSlice {α : Type} (l : List α) (start stop : Int) : List α :=
  let len : Int := l.length
  let s : Int := if start < 0 then max (len + start) 0 else min start len
  let e : Int := if stop < 0 then max (len + stop) 0 else min stop len
  (l.drop s.toNat).take (e - s).toNat

/-- A JavaScript number that may be the result of dividing by zero. -/
inductive JsNum where
  | num (q : ℚ)
  | posInf
  | negInf
  | nan
deriving DecidableEq

/-- JavaScript `Math.ceil(a / b)` including the division-by-zero cases
(`x/0` is `Infinity`, `-Infinity` or `NaN` in JavaScript). -/
def jsCeilDiv (a b : ℚ) : JsNum :=
  if b = 0 then (if a = 0 then .nan else if 0 < a then .posInf else .negInf)
  else .num ((⌈a / b⌉ : ℤ) : ℚ)

/-- Truthiness of an optional string request field (absent or empty is falsy). -/
def truthyStr : Option String → Bool
  | none => false
  | some s => s != ""

/-- Truthiness of an optional numeric request field (absent or zero is falsy). -/
def truthyNum : Option ℚ → Bool
  | none => false
  | some q => q != 0

/-- The sort of the order-listing routes: descending by `createdAt`
(stable, matching the runtime's stable `Array.prototype.sort`). -/
def sortByCreatedDesc (orders : List Order) : List Order :=
  orders.mergeSort (fun a b => decide (b.createdAt ≤ a.createdAt))

/-- The status filter stage of the admin order listing (`if (status)`). -/
def filterByStatus (orders : List Order) (status : Option String) : List Order :=
  if truthyStr status then orders.filter (fun o => o.status == status.getD "") else orders

/-- Response envelope of the order-listing routes. -/
structure OrderListEnvelope where
  orders : List Order
  total : Nat
  page : Int
  pageSize : Int
  totalPages : JsNum
deriving DecidableEq

/-- Outcome of the admin order listing. -/
inductive ListOrdersResult where
  | forbidden
  | ok (env : OrderListEnvelope)
deriving DecidableEq

/-- The admin order listing (`GET /`): admin check, status filter, sort by
`createdAt` descending, then pagination (`limit` defaults to 10). -/
def listOrders (orders : List Order) (callerRole : String) (status : Option String)
    (page : Int) (limit : Option Int) : ListOrdersResult :=
  if callerRole ≠ "admin" then .forbidden
  else
    let filtered := filterByStatus orders status
    let sorted := sortByCreatedDesc filtered
    let pageSize : Int := match limit with | none => 10 | some n => n
    let startIndex : Int := (page - 1) * pageSize
    let endIndex : Int := startIndex + pageSize
    .ok { orders := jsSlice sorted startIndex endIndex
          total := sorted.length
          page := page
          pageSize := pageSize
          totalPages := jsCeilDiv (sorted.length : ℚ) (pageSize : ℚ) }

/-- The caller-scoped order listing (`GET /my-orders`): filter to the
caller's `userId`, sort, paginate (`limit` defaults to 10). -/
def myOrders (orders : List Order) (callerUserId : Int) (page : Int)
    (limit : Option Int) : OrderListEnvelope :=
  let userOrders := orders.filter (fun o => o.userId == some callerUserId)
  let sorted := sortByCreatedDesc userOrders
  let pageSize : Int := match limit with | none => 10 | some n => n
  let startIndex : Int := (page - 1) * pageSize
  let endIndex : Int := startIndex + pageSize
  { orders := jsSlice sorted startIndex endIndex
    total := userOrders.length
    page := page
    pageSize := pageSize
    totalPages := jsCeilDiv (userOrders.length : ℚ) (pageSize : ℚ) }

/-- The aggregate record of `GET /stats/summary`. -/
structure OrderStats where
  totalOrders : Nat
  totalRevenue : ℚ
  completedOrders : Nat
  pendingOrders : Nat
  cancelledOrders : Nat
  averageOrderValue : ℚ
deriving DecidableEq

/-- The statistics computed over the loaded orders collection. -/
def computeStats (orders : List Order) : OrderStats :=
  { totalOrders := orders.length
    totalRevenue := (orders.map (·.total)).sum
    completedOrders := (orders.filter (fun o => o.status == "completed")).length
    pendingOrders := (orders.filter (fun o => o.status == "pending")).length
    cancelledOrders := (orders.filter (fun o => o.status == "cancelled")).length
    averageOrderValue :=
      if 0 < orders.length then (orders.map (·.total)).sum / (orders.length : ℚ) else 0 }

/-- Outcome of `GET /stats/summary`. -/
inductive StatsResult where
  | forbidden
  | ok (s : OrderStats)
deriving DecidableEq

/-- The order-statistics route (admin only). -/
def statsSummary (orders : List Order) (callerRole : String) : StatsResult :=
  if callerRole ≠ "admin" then .forbidden else .ok (computeStats orders)

/-- The fields of a product create/update request body (all optional:
JavaScript destructuring leaves absent fields `undefined`). -/
structure ProductInput where
  name : Option String
  price : Option ℚ
  category : Option String
  description : Option String
  image : Option String
  featured : Option Bool
deriving DecidableEq

/-- The required-fields check of the create-product route
(`!name || !price || !category || !description`). -/
def productFieldsOk (inp : ProductInput) : Bool :=
  truthyStr inp.name && truthyNum inp.price && truthyStr inp.category &&
    truthyStr inp.description

/-- Whether some stored product has the given name, case-insensitively. -/
def nameConflict (products : List Product) (name : String) : Bool :=
  products.any (fun p => jsLower p.name == jsLower name)

/-- Outcome of the create-product route. -/
inductive CreateProductResult where
  | forbidden
  | missingFields
  | invalidPrice
  | duplicateName
  | created (p : Product)
deriving DecidableEq

/-- The create-product route (`POST /`, admin only): required fields,
positive price, case-insensitive duplicate-name check, then append. -/
def createProduct (products : List Product) (callerRole : String) (inp : ProductInput)
    (now : Nat) : CreateProductResult × List Product :=
  if callerRole ≠ "admin" then (.forbidden, products)
  else if productFieldsOk inp = false then (.missingFields, products)
  else if inp.price.getD 0 ≤ 0 then (.invalidPrice, products)
  else if nameConflict products (inp.name.getD "") then (.duplicateName, products)
  else
    let newProduct : Product :=
      { id := now
        name := inp.name.getD ""
        price := inp.price.getD 0
        category := inp.category.getD ""
        description := inp.description.getD ""
        image := if truthyStr inp.image then inp.image.getD "" else "/api/placeholder/300/200"
        featured := inp.featured.getD false
        createdAt := now
        updatedAt := now }
    (.created newProduct, products ++ [newProduct])

/-- Field-by-field truthy update of one product (`if (name) ...`,
`if (price) ...`, `featured !== undefined`, bump `updatedAt`). -/
def applyUpdate (p : Product) (inp : ProductInput) (now : Nat) : Product :=
  { p with
    name := if truthyStr inp.name then inp.name.getD "" else p.name
    price := if truthyNum inp.price then inp.price.getD 0 else p.price
    category := if truthyStr inp.category then inp.category.getD "" else p.category
    description := if truthyStr inp.description then inp.description.getD "" else p.description
    image := if truthyStr inp.image then inp.image.getD "" else p.image
    featured := match inp.featured with | none => p.featured | some b => b
    updatedAt := now }

/-- Replace the first product with the given id by its updated version
(the in-place `products[productIndex] = ...` of the source). -/
def updateList (products : List Product) (productId : Int) (inp : ProductInput)
    (now : Nat) : List Product :=
  match products with
  | [] => []
  | p :: rest =>
    if p.id == productId then applyUpdate p inp now :: rest
    else p :: updateList rest productId inp now

/-- Outcome of the update-product route. -/
inductive UpdateProductResult where
  | forbidden
  | notFound
  | invalidPrice
  | duplicateName
  | updated (p : Product)
deriving DecidableEq

/-- The update-product route (`PUT /:id`, admin only): lookup, truthy
non-positive-price rejection, duplicate-name check on a real rename
(conflict found among products with a different id), then field update. -/
def updateProduct (products : List Product) (callerRole : String) (productId : Int)
    (inp : ProductInput) (now : Nat) : UpdateProductResult × List Product :=
  if callerRole ≠ "admin" then (.forbidden, products)
  else
    match products.find? (fun p => p.id == productId) with
    | none => (.notFound, products)
    | some current =>
      if truthyNum inp.price && decide (inp.price.getD 0 ≤ 0) then (.invalidPrice, products)
      else if truthyStr inp.name && inp.name.getD "" != current.name &&
          products.any (fun p => jsLower p.name == jsLower (inp.name.getD "") &&
            p.id != productId) then
        (.duplicateName, products)
      else
        (.updated (applyUpdate current inp now), updateList products productId inp now)

/-- The category filter stage of the product listing. -/
def filterByCategory (products : List Product) (category : Option String) : List Product :=
  if truthyStr category && category.getD "" != "All" then
    products.filter (fun p => jsLower p.category == jsLower (category.getD ""))
  else products

/-- Whether `needle` occurs contiguously inside a character list. -/
def includesAux (needle : List Char) : List Char → Bool
  | [] => needle.isEmpty
  | c :: rest => needle.isPrefixOf (c :: rest) || includesAux needle rest

/-- JavaScript `String.prototype.includes` on the character lists. -/
def strIncludes (hay needle : String) : Bool := includesAux needle.data hay.data

/-- The search filter stage of the product listing: case-insensitive
substring match over name, description and category. -/
def filterBySearch (products : List Product) (search : Option String) : List Product :=
  if truthyStr search then
    products.filter (fun p =>
      strIncludes (jsLower p.name) (jsLower (search.getD "")) ||
      strIncludes (jsLower p.description) (jsLower (search.getD "")) ||
      strIncludes (jsLower p.category) (jsLower (search.getD "")))
  else products

/-- Response envelope of the product listing. -/
structure ProductListEnvelope where
  products : List Product
  total : Nat
  page : Int
  pageSize : Int
  totalPages : JsNum
deriving DecidableEq

/-- The product listing (`GET /`): category filter, search filter, then
pagination; `limit` absent (or the empty string, both falsy) means the
whole filtered collection is one page. -/
def listProducts (products : List Product) (category search : Option String)
    (page : Int) (limit : Option Int) : ProductListEnvelope :=
  let filtered := filterBySearch (filterByCategory products category) search
  let pageSize : Int := match limit with | none => (filtered.length : Int) | some n => n
  let startIndex : Int := (page - 1) * pageSize
  let endIndex : Int := startIndex + pageSize
  { products := jsSlice filtered startIndex endIndex
    total := filtered.length
    page := page
    pageSize := pageSize
    totalPages := jsCeilDiv (filtered.length : ℚ) (pageSize : ℚ) }

/-- State of one backing file of the record store: absent, unreadable or
corrupt, or a well-formed serialized collection. -/
inductive FileCell (α : Type) where
  | missing
  | corrupt
  | good (records : List α)

/-- The whole flat-file store: one cell per collection name. -/
structure Store (α : Type) where
  cells : String → FileCell α

/-- The `readData` helper: auto-creates a missing file as the empty
collection, falls back to the empty sequence on a corrupt file (fail-open),
otherwise returns the parsed records.  Returns the records together with
the store after the call. -/
def readData {α : Type} (s : Store α) (name : String) : List α × Store α :=
  match s.cells name with
  | .missing => ([], ⟨fun n => if n = name then .good [] else s.cells n⟩)
  | .corrupt => ([], s)
  | .good l => (l, s)

/-- The `writeData` helper: serializes the full collection into the named
file (I/O failure is outside this state model). -/
def writeData {α : Type} (s : Store α) (name : String) (data : List α) : Store α :=
  ⟨fun n => if n = name then .good data else s.cells n⟩

/-! Concrete fixtures used to exercise the routes. -/

/-- A catalog with one ten-dollar product. -/
def pAlpha : Product :=
  { id := 1, name := "Alpha", price := 10, category := "Tools", description := "Da",
    image := "ia", featured := false, createdAt := 0, updatedAt := 0 }

/-- A two-dollar product with id 2. -/
def pBeta : Product :=
  { id := 2, name := "Beta", price := 2, category := "Tools", description := "Db",
    image := "ib", featured := false, createdAt := 0, updatedAt := 0 }

/-- A five-dollar product named Widget. -/
def pWidget : Product :=
  { id := 1, name := "Widget", price := 5, category := "Tools", description := "Dw",
    image := "iw", featured := false, createdAt := 0, updatedAt := 0 }

/-- A three-dollar product named Gadget. -/
def pGadget : Product :=
  { id := 2, name := "Gadget", price := 3, category := "Toys", description := "Dg",
    image := "ig", featured := true, createdAt := 0, updatedAt := 0 }

/-- Billing fields shared by the fixture requests. -/
def ciFix : CustomerInfo :=
  { email := "a@b.c", firstName := "F", lastName := "L", address := "A", city := "C",
    zipCode := "Z" }

/-- A stored order belonging to user 7. -/
def oU7 : Order :=
  { id := 11, orderNumber := "ORD-11", userId := some 7, customerInfo := ciFix,
    items := [], total := 10, paymentMethod := "card", status := "completed",
    paymentStatus := "paid", createdAt := 3, updatedAt := 3 }

/-- A stored order belonging to user 8. -/
def oU8 : Order :=
  { id := 12, orderNumber := "ORD-12", userId := some 8, customerInfo := ciFix,
    items := [], total := 20, paymentMethod := "card", status := "pending",
    paymentStatus := "paid", createdAt := 4, updatedAt := 4 }

/-- A well-formed create-order request for two units of `pAlpha`. -/
def reqBase : OrderRequest :=
  { email := "a@b.c", firstName := "F", lastName := "L", address := "A", city := "C",
    zipCode := "Z", paymentMethod := "card", items := [{ id := 1, quantity := 2 }],
    total := 20, userId := some 7 }

/-- A request whose declared total is zero but whose single item resolves. -/
def reqTotalZero : OrderRequest := { reqBase with items := [{ id := 1, quantity := 1 }], total := 0 }

/-- A request whose first item has zero quantity and whose second item is
an unknown product id. -/
def reqQtyThenUnknown : OrderRequest :=
  { reqBase with items := [{ id := 1, quantity := 0 }, { id := 2, quantity := 1 }], total := 5 }

/-- A request with a positive non-integer quantity (one and a half units). -/
def reqHalfQty : OrderRequest :=
  { reqBase with items := [{ id := 2, quantity := 3/2 }], total := 3 }

/-- A request whose second item has an id absent from the catalog. -/
def reqSecondUnknown : OrderRequest :=
  { reqBase with items := [{ id := 1, quantity := 2 }, { id := 2, quantity := 1 }] }

/-- A request whose single item has quantity zero. -/
def reqZeroQty : OrderRequest :=
  { reqBase with items := [{ id := 1, quantity := 0 }] }

/-- The line item produced by validating two units of `pAlpha`. -/
def lineAlpha2 : LineItem :=
  { id := 1, name := "Alpha", price := 10, quantity := 2, subtotal := 20 }

/-- A product-update body carrying only `price = 0`. -/
def inpPriceZero : ProductInput :=
  { name := none, price := some 0, category := none, description := none,
    image := none, featured := none }

/-- A product body renaming to a case-insensitive duplicate of Widget. -/
def inpRename : ProductInput :=
  { name := some "widget", price := some 5, category := some "c",
    description := some "d", image := none, featured := none }

/-- No two stored products share a case-insensitive name. -/
def nodupNames : List Product → Bool
  | [] => true
  | p :: rest => (rest.all fun q => jsLower q.name != jsLower p.name) && nodupNames rest

/-- No two stored products share an id. -/
def nodupIds : List Product → Bool
  | [] => true
  | p :: rest => (rest.all fun q => q.id != p.id) && nodupIds rest

/-! Claim theorems. -/

/-- C9: for every collection name and store state, writing back the result
of a read (`save(name, load(name))`) leaves the stored collection
unchanged — a subsequent load returns the same record sequence as the load
before the write. -/
theorem save_load_roundtrip {α : Type} (s : Store α) (name : String) :
    (readData (writeData (readData s name).2 name (readData s name).1) name).1 =
      (readData s name).1 := by
  cases h : s.cells name <;> simp [readData, writeData, h]

/-- C8: for an admin caller, `statsSummary` over an empty orders collection
returns all-zero statistics with `averageOrderValue = 0` and no division
fault, and over any non-empty collection `averageOrderValue` equals
`totalRevenue / totalOrders`. -/
theorem stats_empty_and_average (orders : List Order) (h : 0 < orders.length) :
    statsSummary [] "admin" =
      .ok { totalOrders := 0, totalRevenue := 0, completedOrders := 0, pendingOrders := 0,
            cancelledOrders := 0, averageOrderValue := 0 } ∧
    statsSummary orders "admin" = .ok (computeStats orders) ∧
    (computeStats orders).averageOrderValue =
      (computeStats orders).totalRevenue / ((computeStats orders).totalOrders : ℚ) := by
  refine ⟨by simp [statsSummary, computeStats], by simp [statsSummary], ?_⟩
  simp [computeStats, h]

/-- Witness for C8 at a one-order collection. -/
theorem stats_empty_and_average_witness :
    statsSummary [] "admin" =
      .ok { totalOrders := 0, totalRevenue := 0, completedOrders := 0, pendingOrders := 0,
            cancelledOrders := 0, averageOrderValue := 0 } ∧
    statsSummary [oU7] "admin" = .ok (computeStats [oU7]) ∧
    (computeStats [oU7]).averageOrderValue =
      (computeStats [oU7]).totalRevenue / ((computeStats [oU7]).totalOrders : ℚ) :=
  stats_empty_and_average [oU7] (by decide)

/-- Elements of a JavaScript slice come from the sliced list. -/
theorem mem_jsSlice {α : Type} {l : List α} {a b : Int} {x : α}
    (h : x ∈ jsSlice l a b) : x ∈ l := by
  unfold jsSlice at h
  exact (List.drop_sublist _ _).subset ((List.take_sublist _ _).subset h)

/-- C2: every order returned by `my-orders` carries the caller's `userId`,
whatever the page and limit parameters are, and the unscoped admin listing
answers Forbidden to any non-admin caller whatever its parameters are. -/
theorem myOrders_scoped_list_forbidden (orders : List Order) (callerUserId : Int)
    (page : Int) (limit : Option Int) (status : Option String) (role : String)
    (hrole : role ≠ "admin") :
    ((myOrders orders callerUserId page limit).orders.all
      (fun o => o.userId == some callerUserId)) = true ∧
    listOrders orders role status page limit = .forbidden := by
  constructor
  · rw [List.all_eq_true]
    intro o ho
    have h1 : o ∈ sortByCreatedDesc (orders.filter (fun o => o.userId == some callerUserId)) := by
      simp only [myOrders] at ho
      exact mem_jsSlice ho
    have h2 : o ∈ orders.filter (fun o => o.userId == some callerUserId) := by
      simpa [sortByCreatedDesc, List.mem_mergeSort] using h1
    exact (List.mem_filter.mp h2).2
  · simp [listOrders, hrole]

/-- Witness for C2 on a two-user collection with caller id 7. -/
theorem myOrders_scoped_list_forbidden_witness :
    ((myOrders [oU7, oU8] 7 1 none).orders.all (fun o => o.userId == some 7)) = true ∧
    listOrders [oU7, oU8] "customer" none 1 none = .forbidden :=
  myOrders_scoped_list_forbidden [oU7, oU8] 7 1 none none "customer" (by decide)

/-- A slice from 0 to 0 is empty. -/
theorem jsSlice_zero_zero {α : Type} (l : List α) : jsSlice l 0 0 = [] := by
  simp [jsSlice]

/-- With `limit = 0` the admin order listing does not fail: it answers a
success envelope with an empty page and the divided-by-zero `totalPages`. -/
theorem listOrders_limit_zero (orders : List Order) (status : Option String) (page : Int) :
    listOrders orders "admin" status page (some 0) =
      .ok { orders := [], total := (filterByStatus orders status).length, page := page,
            pageSize := 0,
            totalPages := if (filterByStatus orders status).length = 0 then JsNum.nan
                          else JsNum.posInf } := by
  have hlen : (sortByCreatedDesc (filterByStatus orders status)).length =
      (filterByStatus orders status).length := by
    simp [sortByCreatedDesc, List.length_mergeSort]
  unfold listOrders
  rw [if_neg (by simp)]
  simp only [mul_zero, zero_add, add_zero]
  rw [jsSlice_zero_zero, hlen]
  by_cases h : (filterByStatus orders status).length = 0 <;>
    simp [jsCeilDiv, h, Nat.pos_of_ne_zero]

/-- With `limit = 0` the product listing does not fail either. -/
theorem listProducts_limit_zero (products : List Product) (category search : Option String)
    (page : Int) :
    listProducts products category search page (some 0) =
      { products := [],
        total := (filterBySearch (filterByCategory products category) search).length,
        page := page, pageSize := 0,
        totalPages :=
          if (filterBySearch (filterByCategory products category) search).length = 0
          then JsNum.nan else JsNum.posInf } := by
  unfold listProducts
  simp only [mul_zero, zero_add, add_zero]
  rw [jsSlice_zero_zero]
  by_cases h : (filterBySearch (filterByCategory products category) search).length = 0 <;>
    simp [jsCeilDiv, h, Nat.pos_of_ne_zero]

/-- C5 counterexample: on a one-order collection an admin listing with
`limit = 0` answers success (with `totalPages` the JavaScript `Infinity`),
not an `InvalidQueryError`; the code has no such rejection. -/
theorem limit_zero_counterexample :
    listOrders [oU7] "admin" none 1 (some 0) =
      .ok { orders := [], total := 1, page := 1, pageSize := 0, totalPages := JsNum.posInf } ∧
    listProducts [pAlpha] none none 1 (some 0) =
      { products := [], total := 1, page := 1, pageSize := 0, totalPages := JsNum.posInf } := by
  constructor
  · have h := listOrders_limit_zero [oU7] none 1
    simpa [filterByStatus, truthyStr] using h
  · have h := listProducts_limit_zero [pAlpha] none none 1
    simpa [filterBySearch, filterByCategory, truthyStr] using h

/-- Items that all resolve in the catalog with positive quantities validate
successfully, and the calculated total is the recomputed catalog total. -/
theorem validateItems_ok_of_resolved (products : List Product) (items : List ReqItem)
    (h : ∀ it ∈ items, (products.find? (fun p => p.id == it.id)).isSome ∧ 0 < it.quantity) :
    ∃ ls, validateItems products items = .ok (ls, computedTotal products items) := by
  induction items with
  | nil => exact ⟨[], by simp [validateItems, computedTotal]⟩
  | cons it rest ih =>
    obtain ⟨hs, hq⟩ := h it (by simp)
    obtain ⟨p, hp⟩ := Option.isSome_iff_exists.mp hs
    obtain ⟨ls, hls⟩ := ih (fun x hx => h x (by simp [hx]))
    refine ⟨{ id := p.id, name := p.name, price := p.price, quantity := it.quantity,
              subtotal := p.price * it.quantity } :: ls, ?_⟩
    have hcat : catalogPrice products it.id = p.price := by simp [catalogPrice, hp]
    simp only [validateItems, hp, hls]
    rw [if_neg (not_le.mpr hq)]
    simp [computedTotal, hcat]

/-- When every earlier item resolves with a positive quantity and an item's
id is not in the catalog, validation fails naming that id. -/
theorem validateItems_unknown (products : List Product) (it : ReqItem) (post : List ReqItem)
    (hbad : products.find? (fun p => p.id == it.id) = none) :
    ∀ pre : List ReqItem,
      (∀ x ∈ pre, (products.find? (fun p => p.id == x.id)).isSome ∧ 0 < x.quantity) →
      validateItems products (pre ++ it :: post) = .error (.unknownProduct it.id) := by
  intro pre
  induction pre with
  | nil => intro _; simp [validateItems, hbad]
  | cons x rest ih =>
    intro h
    obtain ⟨hs, hq⟩ := h x (by simp)
    obtain ⟨p, hp⟩ := Option.isSome_iff_exists.mp hs
    have hrec := ih (fun y hy => h y (by simp [hy]))
    simp only [List.cons_append, validateItems, hp]
    rw [if_neg (not_le.mpr hq)]
    simp [List.append_eq, hrec]

/-- When every earlier item resolves with a positive quantity and an item
resolving to product `p` has a non-positive quantity, validation fails
naming `p`. -/
theorem validateItems_invalidQty (products : List Product) (it : ReqItem)
    (post : List ReqItem) (p : Product)
    (hfound : products.find? (fun q => q.id == it.id) = some p)
    (hq0 : it.quantity ≤ 0) :
    ∀ pre : List ReqItem,
      (∀ x ∈ pre, (products.find? (fun q => q.id == x.id)).isSome ∧ 0 < x.quantity) →
      validateItems products (pre ++ it :: post) = .error (.invalidQuantity p.name) := by
  intro pre
  induction pre with
  | nil =>
    intro _
    simp only [List.nil_append, validateItems, hfound]
    rw [if_pos hq0]
  | cons x rest ih =>
    intro h
    obtain ⟨hs, hq⟩ := h x (by simp)
    obtain ⟨q, hpq⟩ := Option.isSome_iff_exists.mp hs
    have hrec := ih (fun y hy => h y (by simp [hy]))
    simp only [List.cons_append, validateItems, hpq]
    rw [if_neg (not_le.mpr hq)]
    simp [List.append_eq, hrec]

/-- When the preflight checks pass and item validation fails, the route
reports that failure and leaves the stored collection unchanged. -/
theorem createOrder_error_of_validate (products : List Product) (orders : List Order)
    (req : OrderRequest) (now : Nat) (e : OrderError)
    (hb : billingOk req = true) (hne : req.items ≠ []) (ht : 0 < req.total)
    (hv : validateItems products req.items = .error e) :
    createOrder products orders req now = (.failed e, orders) := by
  unfold createOrder
  rw [hb, if_neg (by simp), if_neg (by simp [hne]), if_neg (not_le.mpr ht), hv]

/-- When the preflight checks pass, validation succeeds and the tolerance
test fires, the route reports the mismatch with both totals. -/
theorem createOrder_mismatch_of_validate (products : List Product) (orders : List Order)
    (req : OrderRequest) (now : Nat) (ls : List LineItem) (ct : ℚ)
    (hb : billingOk req = true) (hne : req.items ≠ []) (ht : 0 < req.total)
    (hv : validateItems products req.items = .ok (ls, ct))
    (htol : 1/100 < |ct - req.total|) :
    createOrder products orders req now = (.failed (.totalMismatch ct req.total), orders) := by
  unfold createOrder
  rw [hb, if_neg (by simp), if_neg (by simp [hne]), if_neg (not_le.mpr ht), hv]
  simp only [htol, if_true]

/-- When the preflight checks pass, validation succeeds and the totals
agree within the tolerance, the order is created and appended. -/
theorem createOrder_ok_of_validate (products : List Product) (orders : List Order)
    (req : OrderRequest) (now : Nat) (ls : List LineItem) (ct : ℚ)
    (hb : billingOk req = true) (hne : req.items ≠ []) (ht : 0 < req.total)
    (hv : validateItems products req.items = .ok (ls, ct))
    (htol : ¬ 1/100 < |ct - req.total|) :
    createOrder products orders req now =
      (.created (newOrderOf req ls ct now), orders ++ [newOrderOf req ls ct now]) := by
  unfold createOrder
  rw [hb, if_neg (by simp), if_neg (by simp [hne]), if_neg (not_le.mpr ht), hv]
  simp [htol]
  simpa using not_lt.mp htol

/-- C1 (amended): for a request that passes the preflight checks (billing
fields, payment method and item list non-empty, declared total positive)
and whose items all resolve in the catalog with positive quantities, the
creation fails with `TotalMismatchError` — carrying the computed and the
provided totals — exactly when `|declaredTotal − computedTotal| > 0.01`,
and otherwise creates an order whose total is the computed one. -/
theorem create_totalMismatch_iff (products : List Product) (orders : List Order)
    (req : OrderRequest) (now : Nat)
    (hb : billingOk req = true) (hne : req.items ≠ []) (ht : 0 < req.total)
    (hresolve : ∀ it ∈ req.items,
      (products.find? (fun p => p.id == it.id)).isSome ∧ 0 < it.quantity) :
    ((createOrder products orders req now).1 =
        .failed (.totalMismatch (computedTotal products req.items) req.total) ↔
      1/100 < |req.total - computedTotal products req.items|) ∧
    (|req.total - computedTotal products req.items| ≤ 1/100 →
      ∃ o, (createOrder products orders req now).1 = .created o ∧
        o.total = computedTotal products req.items) := by
  obtain ⟨ls, hv⟩ := validateItems_ok_of_resolved products req.items hresolve
  have habs : |req.total - computedTotal products req.items| =
      |computedTotal products req.items - req.total| := abs_sub_comm _ _
  by_cases htol : 1/100 < |computedTotal products req.items - req.total|
  · have hres := createOrder_mismatch_of_validate products orders req now ls _ hb hne ht hv htol
    constructor
    · rw [hres, habs]
      simpa using htol
    · intro hle
      rw [habs] at hle
      exact absurd htol (not_lt.mpr hle)
  · have hres := createOrder_ok_of_validate products orders req now ls _ hb hne ht hv htol
    constructor
    · rw [hres, habs]
      simp [htol]
      simpa using not_lt.mp htol
    · intro _
      exact ⟨newOrderOf req ls (computedTotal products req.items) now, by rw [hres], rfl⟩

/-- Witness for C1 at a request for two units of the ten-dollar product
with a matching declared total of 20. -/
theorem create_totalMismatch_iff_witness :
    (((createOrder [pAlpha] [] reqBase 5).1 =
        .failed (.totalMismatch (computedTotal [pAlpha] reqBase.items) reqBase.total)) ↔
      1/100 < |reqBase.total - computedTotal [pAlpha] reqBase.items|) ∧
    (|reqBase.total - computedTotal [pAlpha] reqBase.items| ≤ 1/100 →
      ∃ o, (createOrder [pAlpha] [] reqBase 5).1 = .created o ∧
        o.total = computedTotal [pAlpha] reqBase.items) :=
  create_totalMismatch_iff [pAlpha] [] reqBase 5 (by decide) (by decide)
    (by norm_num [reqBase]) (by decide)

/-- C1 counterexample: a request whose single item resolves with positive
quantity (validation succeeds, computed total 10) and whose declared total
0 differs by more than the tolerance is rejected as `Invalid order total`,
not with the `TotalMismatchError` the claim requires for every such
request. -/
theorem create_totalMismatch_counterexample :
    validateItems [pAlpha] reqTotalZero.items =
      .ok ([{ id := 1, name := "Alpha", price := 10, quantity := 1, subtotal := 10 }], 10) ∧
    1/100 < |reqTotalZero.total - computedTotal [pAlpha] reqTotalZero.items| ∧
    (createOrder [pAlpha] [] reqTotalZero 5).1 = .failed .invalidTotal := by
  refine ⟨?_, ?_, ?_⟩
  · norm_num [validateItems, reqTotalZero, reqBase, pAlpha, List.find?]
  · norm_num [computedTotal, catalogPrice, reqTotalZero, reqBase, pAlpha, List.find?]
  · have hb : billingOk reqTotalZero = true := by decide
    have ht : reqTotalZero.total ≤ 0 := by norm_num [reqTotalZero, reqBase]
    unfold createOrder
    rw [hb, if_neg (by simp), if_neg (by decide), if_pos ht]

/-- C3 (amended): for a request that passes the preflight checks, if the
first invalid item is an unresolved product id — every earlier item
resolves with a positive quantity and this item's id is not in the
catalog — then creation fails with `UnknownProductError` naming that id
and the stored orders collection is exactly what it was before the call. -/
theorem create_unknownProduct (products : List Product) (orders : List Order)
    (req : OrderRequest) (now : Nat) (pre : List ReqItem) (it : ReqItem)
    (post : List ReqItem)
    (hb : billingOk req = true) (ht : 0 < req.total)
    (hsplit : req.items = pre ++ it :: post)
    (hpre : ∀ x ∈ pre, (products.find? (fun p => p.id == x.id)).isSome ∧ 0 < x.quantity)
    (hbad : products.find? (fun p => p.id == it.id) = none) :
    (createOrder products orders req now).1 = .failed (.unknownProduct it.id) ∧
    (createOrder products orders req now).2 = orders := by
  have hne : req.items ≠ [] := by rw [hsplit]; simp
  have hv : validateItems products req.items = .error (.unknownProduct it.id) := by
    rw [hsplit]
    exact validateItems_unknown products it post hbad pre hpre
  rw [createOrder_error_of_validate products orders req now _ hb hne ht hv]
  exact ⟨rfl, rfl⟩

/-- Witness for C3: a request whose second item has the unknown id 2. -/
theorem create_unknownProduct_witness :
    (createOrder [pAlpha] [] reqSecondUnknown 5).1 = .failed (.unknownProduct 2) ∧
    (createOrder [pAlpha] [] reqSecondUnknown 5).2 = [] :=
  create_unknownProduct [pAlpha] [] reqSecondUnknown 5 [{ id := 1, quantity := 2 }]
    { id := 2, quantity := 1 } [] (by decide) (by norm_num [reqSecondUnknown, reqBase])
    rfl (by decide) (by decide)

/-- C3 counterexample: id 2 is absent from the catalog and referenced by
the request, yet — because an earlier item fails the quantity check
first — creation fails with `InvalidQuantityError`, not with the
`UnknownProductError` naming 2 that the claim requires. -/
theorem create_unknownProduct_counterexample :
    List.find? (fun p => p.id == (2 : Int)) [pAlpha] = none ∧
    (createOrder [pAlpha] [] reqQtyThenUnknown 5).1 = .failed (.invalidQuantity "Alpha") ∧
    (createOrder [pAlpha] [] reqQtyThenUnknown 5).1 ≠ .failed (.unknownProduct 2) := by
  have hv : validateItems [pAlpha] reqQtyThenUnknown.items =
      .error (.invalidQuantity "Alpha") := by
    norm_num [validateItems, reqQtyThenUnknown, reqBase, pAlpha, List.find?]
  have h := createOrder_error_of_validate [pAlpha] [] reqQtyThenUnknown 5 _ (by decide)
    (by decide) (by norm_num [reqQtyThenUnknown, reqBase]) hv
  rw [h]
  exact ⟨by decide, rfl, by simp⟩

/-- C4 (amended): the quantity check only rejects JS-falsy or non-positive
quantities.  For a request that passes the preflight checks, if the first
invalid item resolves to catalog product `p` but has quantity `≤ 0`,
creation fails with `InvalidQuantityError` naming `p` and no order is
stored; a positive non-integer quantity is not rejected. -/
theorem create_invalidQuantity (products : List Product) (orders : List Order)
    (req : OrderRequest) (now : Nat) (pre : List ReqItem) (it : ReqItem)
    (post : List ReqItem) (p : Product)
    (hb : billingOk req = true) (ht : 0 < req.total)
    (hsplit : req.items = pre ++ it :: post)
    (hpre : ∀ x ∈ pre, (products.find? (fun q => q.id == x.id)).isSome ∧ 0 < x.quantity)
    (hfound : products.find? (fun q => q.id == it.id) = some p)
    (hq : it.quantity ≤ 0) :
    (createOrder products orders req now).1 = .failed (.invalidQuantity p.name) ∧
    (createOrder products orders req now).2 = orders := by
  have hne : req.items ≠ [] := by rw [hsplit]; simp
  have hv : validateItems products req.items = .error (.invalidQuantity p.name) := by
    rw [hsplit]
    exact validateItems_invalidQty products it post p hfound hq pre hpre
  rw [createOrder_error_of_validate products orders req now _ hb hne ht hv]
  exact ⟨rfl, rfl⟩

/-- Witness for C4: a single item with quantity 0 resolving to `pAlpha`. -/
theorem create_invalidQuantity_witness :
    (createOrder [pAlpha] [] reqZeroQty 5).1 = .failed (.invalidQuantity "Alpha") ∧
    (createOrder [pAlpha] [] reqZeroQty 5).2 = [] := by
  have h := create_invalidQuantity [pAlpha] [] reqZeroQty 5 [] { id := 1, quantity := 0 }
    [] pAlpha (by decide) (by norm_num [reqZeroQty, reqBase]) rfl (by decide) (by decide)
    (by norm_num)
  simpa [pAlpha] using h

/-- C4 counterexample: an item with the positive non-integer quantity 1.5
is not rejected with `InvalidQuantityError` — the order is created and one
record is stored, because the source only checks `!quantity` and
`quantity <= 0`, not integrality. -/
theorem quantity_integer_counterexample :
    reqHalfQty.items = [{ id := 2, quantity := 3/2 }] ∧
    (createOrder [pBeta] [] reqHalfQty 5).1.isCreated = true ∧
    ((createOrder [pBeta] [] reqHalfQty 5).2).length = 1 := by
  have hv : validateItems [pBeta] reqHalfQty.items =
      .ok ([{ id := 2, name := "Beta", price := 2, quantity := 3/2, subtotal := 3 }], 3) := by
    norm_num [validateItems, reqHalfQty, reqBase, pBeta, List.find?]
  have h := createOrder_ok_of_validate [pBeta] [] reqHalfQty 5 _ _ (by decide) (by decide)
    (by norm_num [reqHalfQty, reqBase]) hv (by norm_num [reqHalfQty, reqBase])
  rw [h]
  exact ⟨rfl, rfl, rfl⟩

/-- On successful validation the calculated total is the recomputed catalog
total and each line carries the snapshot of the resolved catalog product. -/
theorem validateItems_ok_spec (products : List Product) (items : List ReqItem) :
    ∀ ls t, validateItems products items = .ok (ls, t) →
      t = computedTotal products items ∧
      ∀ li ∈ ls, ∃ p, products.find? (fun q => q.id == li.id) = some p ∧
        li.name = p.name ∧ li.price = p.price ∧ li.subtotal = p.price * li.quantity := by
  induction items with
  | nil =>
    intro ls t h
    simp only [validateItems, Except.ok.injEq, Prod.mk.injEq] at h
    obtain ⟨h1, h2⟩ := h
    subst h1; subst h2
    simp [computedTotal]
  | cons it rest ih =>
    intro ls t h
    simp only [validateItems] at h
    split at h
    · exact absurd h (by simp)
    next p hfind =>
      split at h
      · exact absurd h (by simp)
      next hq =>
        split at h
        · exact absurd h (by simp)
        next tail tailTotal hrec =>
          simp only [Except.ok.injEq, Prod.mk.injEq] at h
          obtain ⟨h1, h2⟩ := h
          subst h1; subst h2
          obtain ⟨iht, ihl⟩ := ih tail tailTotal hrec
          have hpid : p.id = it.id := by
            have := List.find?_some hfind
            simpa using this
          constructor
          · rw [iht]
            simp [computedTotal, catalogPrice, hpid, hfind]
          · intro li hli
            rcases List.mem_cons.mp hli with hhead | htail
            · subst hhead
              refine ⟨p, ?_, rfl, rfl, rfl⟩
              simpa [hpid] using hfind
            · exact ihl li htail

/-- C6: every successfully created order is stored as returned, appended to
the collection, with `total` the server-computed catalog total (not the
client-declared one), `status = completed`, `paymentStatus = paid`,
`createdAt = updatedAt`, and each line carrying the catalog name/price
snapshot with `subtotal = price × quantity`. -/
theorem created_order_shape (products : List Product) (orders : List Order)
    (req : OrderRequest) (now : Nat) (o : Order) (stored : List Order)
    (h : createOrder products orders req now = (.created o, stored)) :
    o.total = computedTotal products req.items ∧
    o.status = "completed" ∧
    o.paymentStatus = "paid" ∧
    o.createdAt = o.updatedAt ∧
    (∀ li ∈ o.items, ∃ p, products.find? (fun q => q.id == li.id) = some p ∧
      li.name = p.name ∧ li.price = p.price ∧ li.subtotal = p.price * li.quantity) ∧
    stored = orders ++ [o] := by
  unfold createOrder at h
  split at h
  · simp at h
  split at h
  · simp at h
  split at h
  · simp at h
  split at h
  · simp at h
  next ls ct hv =>
    split at h
    · simp at h
    simp only [Prod.mk.injEq, CreateResult.created.injEq] at h
    obtain ⟨ho, hstored⟩ := h
    obtain ⟨hct, hsnap⟩ := validateItems_ok_spec products req.items ls ct hv
    subst ho
    refine ⟨by simpa [newOrderOf] using hct, rfl, rfl, rfl, ?_, hstored.symm⟩
    simpa [newOrderOf] using hsnap

/-- Witness for C6: the request for two units of `pAlpha` at total 20. -/
theorem created_order_shape_witness :
    (newOrderOf reqBase [lineAlpha2] 20 5).total = computedTotal [pAlpha] reqBase.items ∧
    (newOrderOf reqBase [lineAlpha2] 20 5).status = "completed" ∧
    (newOrderOf reqBase [lineAlpha2] 20 5).paymentStatus = "paid" ∧
    (newOrderOf reqBase [lineAlpha2] 20 5).createdAt = (newOrderOf reqBase [lineAlpha2] 20 5).updatedAt ∧
    (∀ li ∈ (newOrderOf reqBase [lineAlpha2] 20 5).items, ∃ p,
      List.find? (fun q => q.id == li.id) [pAlpha] = some p ∧
      li.name = p.name ∧ li.price = p.price ∧ li.subtotal = p.price * li.quantity) ∧
    ([] ++ [newOrderOf reqBase [lineAlpha2] 20 5] : List Order) =
      [] ++ [newOrderOf reqBase [lineAlpha2] 20 5] := by
  have hv : validateItems [pAlpha] reqBase.items = .ok ([lineAlpha2], 20) := by
    norm_num [validateItems, reqBase, pAlpha, lineAlpha2, List.find?]
  have h := createOrder_ok_of_validate [pAlpha] [] reqBase 5 [lineAlpha2] 20 (by decide)
    (by decide) (by norm_num [reqBase]) hv (by norm_num [reqBase])
  exact created_order_shape [pAlpha] [] reqBase 5 _ _ h

/-- The updated element keeps its position and id: looking the id up after
the in-place update returns the updated product. -/
theorem updateList_find? (productId : Int) (inp : ProductInput) (now : Nat) :
    ∀ (l : List Product) (cur : Product),
      l.find? (fun p => p.id == productId) = some cur →
      (updateList l productId inp now).find? (fun p => p.id == productId) =
        some (applyUpdate cur inp now) := by
  intro l
  induction l with
  | nil => intro cur h; simp at h
  | cons p rest ih =>
    intro cur h
    cases hid : (p.id == productId) with
    | true =>
      simp only [List.find?_cons, hid, Option.some.injEq] at h
      subst h
      rw [updateList, if_pos hid]
      have hid2 : ((applyUpdate p inp now).id == productId) = true := hid
      simp [List.find?_cons, hid2]
    | false =>
      simp only [List.find?_cons, hid] at h
      rw [updateList, if_neg (by simp [hid])]
      simp only [List.find?_cons, hid]
      exact ih cur h

/-- C10: an admin product update whose `price` field is 0 is neither
rejected by the non-positive-price validation nor applied — both code
paths test the truthiness of `price`, so the update succeeds, the stored
price is unchanged and `updatedAt` is bumped to now.  (The request's
`name` field is absent so that no other validation interferes.) -/
theorem update_price_zero (products : List Product) (productId : Int)
    (inp : ProductInput) (now : Nat) (cur : Product)
    (hfind : products.find? (fun p => p.id == productId) = some cur)
    (hprice : inp.price = some 0) (hname : inp.name = none) :
    (updateProduct products "admin" productId inp now).1 =
      .updated (applyUpdate cur inp now) ∧
    (applyUpdate cur inp now).price = cur.price ∧
    (applyUpdate cur inp now).updatedAt = now ∧
    ((updateProduct products "admin" productId inp now).2.find?
      (fun p => p.id == productId)) = some (applyUpdate cur inp now) := by
  have hpt : truthyNum inp.price = false := by rw [hprice]; rfl
  have hnt : truthyStr inp.name = false := by rw [hname]; rfl
  have hroute : updateProduct products "admin" productId inp now =
      (.updated (applyUpdate cur inp now), updateList products productId inp now) := by
    unfold updateProduct
    rw [if_neg (by simp)]
    simp only [hfind]
    rw [if_neg (by simp [hpt]), if_neg (by simp [hnt])]
  refine ⟨by rw [hroute], ?_, rfl, ?_⟩
  · simp [applyUpdate, hpt]
  · rw [hroute]
    exact updateList_find? productId inp now products cur hfind

/-- Witness for C10: updating `pWidget` with `price = 0` and no name. -/
theorem update_price_zero_witness :
    (updateProduct [pWidget] "admin" 1 inpPriceZero 9).1 =
      .updated (applyUpdate pWidget inpPriceZero 9) ∧
    (applyUpdate pWidget inpPriceZero 9).price = pWidget.price ∧
    (applyUpdate pWidget inpPriceZero 9).updatedAt = 9 ∧
    ((updateProduct [pWidget] "admin" 1 inpPriceZero 9).2.find?
      (fun p => p.id == (1 : Int))) = some (applyUpdate pWidget inpPriceZero 9) :=
  update_price_zero [pWidget] 1 inpPriceZero 9 pWidget (by decide) rfl rfl

/-- The boolean name invariant as a pairwise predicate. -/
theorem nodupNames_iff (l : List Product) :
    nodupNames l = true ↔ l.Pairwise (fun a b => jsLower a.name ≠ jsLower b.name) := by
  induction l with
  | nil => simp [nodupNames]
  | cons p rest ih =>
    simp only [nodupNames, Bool.and_eq_true, List.all_eq_true, bne_iff_ne, ne_eq,
      List.pairwise_cons, ih]
    constructor
    · rintro ⟨h1, h2⟩
      exact ⟨fun q hq => fun e => h1 q hq e.symm, h2⟩
    · rintro ⟨h1, h2⟩
      exact ⟨fun q hq => fun e => h1 q hq e.symm, h2⟩

/-- The boolean id invariant as a pairwise predicate. -/
theorem nodupIds_iff (l : List Product) :
    nodupIds l = true ↔ l.Pairwise (fun a b => a.id ≠ b.id) := by
  induction l with
  | nil => simp [nodupIds]
  | cons p rest ih =>
    simp only [nodupIds, Bool.and_eq_true, List.all_eq_true, bne_iff_ne, ne_eq,
      List.pairwise_cons, ih]
    constructor
    · rintro ⟨h1, h2⟩
      exact ⟨fun q hq => fun e => h1 q hq e.symm, h2⟩
    · rintro ⟨h1, h2⟩
      exact ⟨fun q hq => fun e => h1 q hq e.symm, h2⟩

/-- Appending a product whose lowered name is new preserves the invariant. -/
theorem nodupNames_append_single (l : List Product) (x : Product)
    (h : nodupNames l = true) (hx : ∀ p ∈ l, jsLower p.name ≠ jsLower x.name) :
    nodupNames (l ++ [x]) = true := by
  rw [nodupNames_iff] at h ⊢
  rw [List.pairwise_append]
  refine ⟨h, List.pairwise_singleton _ _, fun a ha b hb => ?_⟩
  simp only [List.mem_singleton] at hb
  subst hb
  exact hx a ha

/-- An update whose id matches nothing leaves the collection unchanged. -/
theorem updateList_of_none (productId : Int) (inp : ProductInput) (now : Nat) :
    ∀ l : List Product, l.find? (fun p => p.id == productId) = none →
      updateList l productId inp now = l := by
  intro l
  induction l with
  | nil => intro _; rfl
  | cons p rest ih =>
    intro h
    cases hid : (p.id == productId) with
    | true => simp [List.find?_cons, hid] at h
    | false =>
      simp only [List.find?_cons, hid] at h
      rw [updateList, if_neg (by simp [hid]), ih h]

/-- A successful lookup splits the collection around the first id match,
and the in-place update replaces exactly that element. -/
theorem updateList_decomp (productId : Int) (inp : ProductInput) (now : Nat) :
    ∀ (l : List Product) (cur : Product),
      l.find? (fun p => p.id == productId) = some cur →
      ∃ l1 l2, l = l1 ++ cur :: l2 ∧ (cur.id == productId) = true ∧
        updateList l productId inp now = l1 ++ applyUpdate cur inp now :: l2 := by
  intro l
  induction l with
  | nil => intro cur h; simp at h
  | cons p rest ih =>
    intro cur h
    cases hid : (p.id == productId) with
    | true =>
      simp only [List.find?_cons, hid, Option.some.injEq] at h
      subst h
      exact ⟨[], rest, rfl, hid, by rw [updateList, if_pos hid]; rfl⟩
    | false =>
      simp only [List.find?_cons, hid] at h
      obtain ⟨l1, l2, hdecomp, hcur, hupd⟩ := ih cur h
      refine ⟨p :: l1, l2, by rw [hdecomp]; rfl, hcur, ?_⟩
      rw [updateList, if_neg (by simp [hid]), hupd]
      rfl

/-- With unique ids, no product outside the split shares the matched id. -/
theorem nodupIds_no_other (l1 l2 : List Product) (cur : Product)
    (h : nodupIds (l1 ++ cur :: l2) = true) :
    ∀ x ∈ l1 ++ l2, x.id ≠ cur.id := by
  rw [nodupIds_iff, List.pairwise_append] at h
  obtain ⟨h1, h2, h12⟩ := h
  intro x hx
  rcases List.mem_append.mp hx with hx1 | hx2
  · exact h12 x hx1 cur (by simp)
  · exact Ne.symm ((List.pairwise_cons.mp h2).1 x hx2)

/-- Replacing one element by one whose lowered name is either unchanged or
fresh among the others preserves the name invariant. -/
theorem nodupNames_replace (l1 l2 : List Product) (cur u : Product)
    (hnd : nodupNames (l1 ++ cur :: l2) = true)
    (hname : jsLower u.name = jsLower cur.name ∨
      ∀ x ∈ l1 ++ l2, jsLower x.name ≠ jsLower u.name) :
    nodupNames (l1 ++ u :: l2) = true := by
  rw [nodupNames_iff, List.pairwise_append, List.pairwise_cons] at hnd ⊢
  obtain ⟨h1, ⟨hcur, h2⟩, h12⟩ := hnd
  rcases hname with heq | hall
  · refine ⟨h1, ⟨fun b hb => by rw [heq]; exact hcur b hb, h2⟩, fun a ha b hb => ?_⟩
    rcases List.mem_cons.mp hb with rfl | hb2
    · exact fun e => h12 a ha cur (by simp) (by rw [← heq]; exact e)
    · exact h12 a ha b (List.mem_cons_of_mem _ hb2)
  · refine ⟨h1, ⟨fun b hb => Ne.symm (hall b (List.mem_append.mpr (Or.inr hb))), h2⟩,
      fun a ha b hb => ?_⟩
    rcases List.mem_cons.mp hb with rfl | hb2
    · exact hall a (List.mem_append.mpr (Or.inl ha))
    · exact h12 a ha b (List.mem_cons_of_mem _ hb2)

/-- C7: over a well-formed store (unique ids, no two case-insensitive
duplicate names), product creation and product update preserve the
invariant that no two stored products share a case-insensitive name, and
— once the earlier checks pass — a create whose name is held
case-insensitively by an existing product, or an update renaming to a name
held case-insensitively by a product with a different id, is rejected with
the duplicate-name error with the collection unchanged. -/
theorem product_name_invariant (products : List Product) (role : String)
    (inp : ProductInput) (productId : Int) (now : Nat)
    (hnd : nodupNames products = true) (hids : nodupIds products = true) :
    nodupNames (createProduct products role inp now).2 = true ∧
    nodupNames (updateProduct products role productId inp now).2 = true ∧
    (role = "admin" → productFieldsOk inp = true → ¬ inp.price.getD 0 ≤ 0 →
      nameConflict products (inp.name.getD "") = true →
      createProduct products role inp now = (.duplicateName, products)) ∧
    (∀ cur, role = "admin" →
      products.find? (fun p => p.id == productId) = some cur →
      (truthyNum inp.price && decide (inp.price.getD 0 ≤ 0)) = false →
      truthyStr inp.name = true → inp.name.getD "" ≠ cur.name →
      (products.any fun p => jsLower p.name == jsLower (inp.name.getD "") &&
        p.id != productId) = true →
      updateProduct products role productId inp now = (.duplicateName, products)) := by
  refine ⟨?_, ?_, ?_, ?_⟩
  · unfold createProduct
    split
    · simpa using hnd
    split
    · simpa using hnd
    split
    · simpa using hnd
    split
    · simpa using hnd
    next hconf =>
      have hx : ∀ p ∈ products, jsLower p.name ≠ jsLower (inp.name.getD "") := by
        have hfalse : nameConflict products (inp.name.getD "") = false :=
          eq_false_of_ne_true hconf
        simpa [nameConflict] using hfalse
      simpa using nodupNames_append_single products _ hnd hx
  · unfold updateProduct
    split
    · simpa using hnd
    split
    · simpa using hnd
    next cur hfind =>
      split
      · simpa using hnd
      split
      · simpa using hnd
      next hcond =>
        obtain ⟨l1, l2, hdecomp, hcurid, hupd⟩ :=
          updateList_decomp productId inp now products cur hfind
        have hnd2 : nodupNames (l1 ++ cur :: l2) = true := by rw [← hdecomp]; exact hnd
        have hids2 : nodupIds (l1 ++ cur :: l2) = true := by rw [← hdecomp]; exact hids
        have hgoal : nodupNames (l1 ++ applyUpdate cur inp now :: l2) = true := by
          cases htr : truthyStr inp.name with
          | false =>
            refine nodupNames_replace l1 l2 cur _ hnd2 (Or.inl ?_)
            simp [applyUpdate, htr]
          | true =>
            by_cases heqn : inp.name.getD "" = cur.name
            · refine nodupNames_replace l1 l2 cur _ hnd2 (Or.inl ?_)
              simp [applyUpdate, htr, heqn]
            · have hany : (products.any fun p =>
                  jsLower p.name == jsLower (inp.name.getD "") && p.id != productId) = false := by
                rcases Bool.eq_false_or_eq_true (products.any fun p =>
                    jsLower p.name == jsLower (inp.name.getD "") && p.id != productId) with
                  htt | hf
                · exact absurd (by simp [htr, heqn, htt]) hcond
                · exact hf
              refine nodupNames_replace l1 l2 cur _ hnd2 (Or.inr ?_)
              intro x hx
              have hcurid2 : cur.id = productId := by simpa using hcurid
              have hxid : x.id ≠ productId := by
                have hne := nodupIds_no_other l1 l2 cur hids2 x hx
                rw [hcurid2] at hne
                exact hne
              have hxmem : x ∈ products := by
                rw [hdecomp]
                rcases List.mem_append.mp hx with h1 | h2
                · exact List.mem_append.mpr (Or.inl h1)
                · exact List.mem_append.mpr (Or.inr (List.mem_cons_of_mem _ h2))
              have := List.any_eq_false.mp hany x hxmem
              simp only [Bool.and_eq_true, not_and, beq_iff_eq, bne_iff_ne] at this
              have hxn : ¬ jsLower x.name = jsLower (inp.name.getD "") := by
                intro e
                exact (this e) hxid
              simpa [applyUpdate, htr] using hxn
        rw [hupd]
        simpa using hgoal
  · intro hrole hfields hpos hconf
    subst hrole
    unfold createProduct
    rw [if_neg (by simp), if_neg (by simp [hfields]), if_neg hpos, if_pos hconf]
  · intro cur hrole hfind hpricechk hnamet hneq hany
    subst hrole
    unfold updateProduct
    rw [if_neg (by simp)]
    simp only [hfind]
    rw [if_neg (by simp [hpricechk]), if_pos (by simp [hnamet, hany, hneq])]

/-- Witness for C7 on the two-product store, renaming Gadget to the
case-insensitive duplicate "widget". -/
theorem product_name_invariant_witness :
    nodupNames (createProduct [pWidget, pGadget] "admin" inpRename 9).2 = true ∧
    nodupNames (updateProduct [pWidget, pGadget] "admin" 2 inpRename 9).2 = true ∧
    ("admin" = "admin" → productFieldsOk inpRename = true →
      ¬ inpRename.price.getD 0 ≤ 0 →
      nameConflict [pWidget, pGadget] (inpRename.name.getD "") = true →
      createProduct [pWidget, pGadget] "admin" inpRename 9 =
        (.duplicateName, [pWidget, pGadget])) ∧
    (∀ cur, "admin" = "admin" →
      List.find? (fun p => p.id == (2 : Int)) [pWidget, pGadget] = some cur →
      (truthyNum inpRename.price && decide (inpRename.price.getD 0 ≤ 0)) = false →
      truthyStr inpRename.name = true → inpRename.name.getD "" ≠ cur.name →
      (List.any [pWidget, pGadget] fun p =>
        jsLower p.name == jsLower (inpRename.name.getD "") && p.id != (2 : Int)) = true →
      updateProduct [pWidget, pGadget] "admin" 2 inpRename 9 =
        (.duplicateName, [pWidget, pGadget])) :=
  product_name_invariant [pWidget, pGadget] "admin" inpRename 2 9 (by decide) (by decide)

/-- C5 (amended): a list query with `limit = 0` is not rejected — both the
order and the product listing return a success envelope whose page is the
empty slice and whose `totalPages = ceil(total/0)` is the JavaScript
division-by-zero value (`NaN` over an empty filtered collection,
`Infinity` otherwise). -/
theorem limit_zero_no_error (orders : List Order) (status : Option String) (pageO : Int)
    (products : List Product) (category search : Option String) (pageP : Int) :
    listOrders orders "admin" status pageO (some 0) =
      .ok { orders := [], total := (filterByStatus orders status).length, page := pageO,
            pageSize := 0,
            totalPages := if (filterByStatus orders status).length = 0 then JsNum.nan
                          else JsNum.posInf } ∧
    listProducts products category search pageP (some 0) =
      { products := [],
        total := (filterBySearch (filterByCategory products category) search).length,
        page := pageP, pageSize := 0,
        totalPages :=
          if (filterBySearch (filterByCategory products category) search).length = 0
          then JsNum.nan else JsNum.posInf } :=
  ⟨listOrders_limit_zero orders status pageO,
   listProducts_limit_zero products category search pageP⟩

end Shop
